import Mathlib

/-!
Verification development for the Seattle MHA housing dashboard
(static browser app: charts.js / map.js / panel.js and the two
concatenated source variants).

The JavaScript modules are shallowly embedded: module-level mutable
state becomes explicit state records, DOM text content becomes string
fields, the third-party chart and map libraries are modelled as the
data they are handed (loaded chart columns, layer visibility flags,
popup presence), and a JavaScript TypeError (method call on null)
becomes an `Except.error`.  JavaScript numbers that hold years are
embedded as `Int`, data fractions as `ℚ`.
-/

/- Batteries marks the core rational operations irreducible, which
blocks `decide` from evaluating concrete chart values; restore the
default reducibility so concrete states compute. -/
set_option allowUnsafeReducibility true in
attribute [semireducible] Rat.mul Rat.add Rat.sub Rat.div Rat.inv

namespace House

/-! ## Data model (charts.js)

Rows of `assets/rent_burden.geojson` (property bags, no geometry) as
consumed by charts.js: fields YEAR, RACE, TENURE, AGE, All_. -/

structure BurdenRow where
  YEAR : Int
  RACE : String
  TENURE : String
  AGE : String
  All_ : ℚ
deriving DecidableEq, Repr

/-- Rows of `assets/renter_income.geojson` as consumed by
buildIncomeChart: YEAR plus the five income-bracket counts. -/
structure IncomeRow where
  YEAR : Int
  F0___30_ : ℚ
  F30___50_ : ℚ
  F50___80_ : ℚ
  F80___120_ : ℚ
  Above_120_ : ℚ
deriving DecidableEq, Repr

/-- The row filter used by getBurdenByRace and updateBurdenStat in
charts.js: `d.YEAR === year && d.RACE === race && d.TENURE === 'Renters'
&& d.AGE === 'All'`. -/
def matchRow (year : Int) (race : String) (d : BurdenRow) : Bool :=
  d.YEAR == year && d.RACE == race && d.TENURE == "Renters" && d.AGE == "All"

/-- The key under which the data files promise at most one row
(year, race, tenure, age). -/
def rowKey (d : BurdenRow) : Int × String × String × String :=
  (d.YEAR, d.RACE, d.TENURE, d.AGE)

/-- Embedding of JavaScript `+(x).toFixed(1)`: round to one decimal
place (nearest, half up), result still a number. -/
def round1 (q : ℚ) : ℚ :=
  (Int.floor (q * 10 + 1/2) : ℚ) / 10

/-- Embedding of charts.js `pct`: format a 0–1 fraction as a percentage
string with exactly one decimal place, `(val * 100).toFixed(1) + "%"`. -/
def pct (q : ℚ) : String :=
  let n : Int := Int.floor (q * 1000 + 1/2)
  toString (n / 10) ++ "." ++ toString (n % 10) ++ "%"

/-- The body of charts.js getBurdenByRace generalised over the race
list it maps over: `races.map(race => { const row = rentBurdenData.find(...);
return row ? +(row.All_ * 100).toFixed(1) : 0; })`. -/
def burdenByYearAcrossRaces (data : List BurdenRow) (year : Int)
    (races : List String) : List ℚ :=
  races.map fun race =>
    match data.find? (matchRow year race) with
    | some row => round1 (row.All_ * 100)
    | none => 0

/-- The fixed race order hard-coded in charts.js getBurdenByRace. -/
def RACES : List String := ["White", "Black", "Hispanic", "Asian", "Native"]

/-- charts.js getBurdenByRace: burden percentages for the fixed race
list in the given year. -/
def getBurdenByRace (data : List BurdenRow) (year : Int) : List ℚ :=
  burdenByYearAcrossRaces data year RACES

/-- Stable insertion preserving ascending YEAR order, the effect of the
stable JavaScript `sort((a, b) => a.YEAR - b.YEAR)`. -/
def insertByYear (r : BurdenRow) : List BurdenRow → List BurdenRow
  | [] => [r]
  | x :: xs => if x.YEAR ≤ r.YEAR then x :: insertByYear r xs else r :: x :: xs

/-- Stable sort by ascending YEAR. -/
def sortByYear : List BurdenRow → List BurdenRow
  | [] => []
  | x :: xs => insertByYear x (sortByYear xs)

/-- charts.js getRentBurdenSeries: rows filtered to the race with
tenure Renters and age All, sorted ascending by year. -/
def getRentBurdenSeries (data : List BurdenRow) (race : String) :
    List BurdenRow :=
  sortByYear (data.filter fun d =>
    d.RACE == race && d.TENURE == "Renters" && d.AGE == "All")

/-- The column data handed to the trend line chart: the years of the
series and the values `+(d.All_ * 100).toFixed(1)` (buildTrendChart /
updateChartsForRace). -/
def trendColumns (data : List BurdenRow) (race : String) :
    List Int × List ℚ :=
  let series := getRentBurdenSeries data race
  (series.map (·.YEAR), series.map fun d => round1 (d.All_ * 100))

/-- Column data of the stacked income chart: the years plus one series
per income bracket. -/
structure IncomeColumns where
  years : List Int
  below30 : List ℚ
  band3050 : List ℚ
  band5080 : List ℚ
  band80120 : List ℚ
  above120 : List ℚ
deriving DecidableEq, Repr

/-- The column data handed to the stacked income chart by
buildIncomeChart: years and the five bracket series. -/
def incomeColumns (data : List IncomeRow) : IncomeColumns :=
  { years := data.map (·.YEAR)
    below30 := data.map (·.F0___30_)
    band3050 := data.map (·.F30___50_)
    band5080 := data.map (·.F50___80_)
    band80120 := data.map (·.F80___120_)
    above120 := data.map (·.Above_120_) }

/-! ## charts.js module state

Module-level mutable variables of charts.js plus the DOM text nodes it
writes.  A chart variable is `none` while still null (before its build
function ran), and otherwise holds the column data last loaded into the
chart widget. -/

structure ChartsState where
  rentBurdenData : List BurdenRow
  renterIncomeData : List IncomeRow
  trendChart : Option (List Int × List ℚ)
  raceChart : Option (List ℚ)
  incomeChart : Option IncomeColumns
  currentYear : Int
  currentRace : String
  statText : String
  subLabel : String
  chart2YearLabel : String
deriving DecidableEq, Repr

/-- The module state right after charts.js is evaluated: empty data,
all three chart variables null, defaults 2022 and race All. -/
def initialChartsState : ChartsState :=
  { rentBurdenData := []
    renterIncomeData := []
    trendChart := none
    raceChart := none
    incomeChart := none
    currentYear := 2022
    currentRace := "All"
    statText := ""
    subLabel := ""
    chart2YearLabel := "" }

/-- charts.js updateBurdenStat: looks up the (year, race) Renters/All
row; writes the stat text (`pct` of the row, or the en-dash placeholder
on a miss) and always rewrites the sub-label
`raceLabel + " · " + year`. -/
def updateBurdenStat (year : Int) (race : String) (c : ChartsState) :
    ChartsState :=
  let row := c.rentBurdenData.find? (matchRow year race)
  let statText :=
    match row with
    | some r => pct r.All_
    | none => "–"
  let raceLabel := if race == "All" then "All renters" else race ++ " renters"
  { c with statText := statText
           subLabel := raceLabel ++ " · " ++ toString year }

/-- charts.js updateChartsForYear: sets currentYear, then calls
`raceChart.load(...)` — a TypeError if raceChart is still null — then
rewrites the chart-2 year label and the stat block. -/
def updateChartsForYear (year : Int) (c : ChartsState) :
    Except String ChartsState :=
  let c := { c with currentYear := year }
  match c.raceChart with
  | none => .error "TypeError: raceChart is null"
  | some _ =>
    let c := { c with
      raceChart := some (getBurdenByRace c.rentBurdenData year)
      chart2YearLabel := "(" ++ toString year ++ ")" }
    .ok (updateBurdenStat year c.currentRace c)

/-- charts.js updateChartsForRace: sets currentRace, then calls
`trendChart.load(...)` — a TypeError if trendChart is still null — then
rewrites the stat block. -/
def updateChartsForRace (race : String) (c : ChartsState) :
    Except String ChartsState :=
  let c := { c with currentRace := race }
  match c.trendChart with
  | none => .error "TypeError: trendChart is null"
  | some _ =>
    let c := { c with trendChart := some (trendColumns c.rentBurdenData race) }
    .ok (updateBurdenStat c.currentYear race c)

/-- charts.js resetCharts: restore the defaults then run both update
paths. -/
def resetCharts (c : ChartsState) : Except String ChartsState := do
  let c := { c with currentYear := 2022, currentRace := "All" }
  let c ← updateChartsForYear 2022 c
  updateChartsForRace "All" c

/-- charts.js initCharts: `none` is the rejected Promise.all branch —
the catch handler only logs, so the module state is untouched; `some`
is the fulfilled branch, which stores both datasets, builds the three
charts and sets the initial stat block. -/
def initCharts (fetched : Option (List BurdenRow × List IncomeRow))
    (c : ChartsState) : ChartsState :=
  match fetched with
  | none => c
  | some (rb, ri) =>
    let c := { c with rentBurdenData := rb, renterIncomeData := ri }
    let c := { c with trendChart := some (trendColumns rb c.currentRace) }
    let c := { c with raceChart := some (getBurdenByRace rb c.currentYear) }
    let c := { c with incomeChart := some (incomeColumns ri) }
    updateBurdenStat c.currentYear c.currentRace c

/-! ## Map embedding (the map.js variants)

Nested GeoJSON coordinate arrays as consumed by reprojectCoords: a
node is either a single position (an array whose first entry is a
number) or an array of nested coordinate arrays. -/

inductive Coords where
  | pair : ℚ × ℚ → Coords
  | arr : List Coords → Coords

mutual

/-- reprojectCoords from the map load handler, with the external proj4
transform (EPSG:2285 to WGS84) abstracted as `f`:
if the first entry is a number the node is a position and `f` is
applied; otherwise the function maps itself over the nested arrays. -/
def reprojectCoords (f : ℚ × ℚ → ℚ × ℚ) : Coords → Coords
  | .pair p => .pair (f p)
  | .arr cs => .arr (reprojectCoordsList f cs)

/-- The `coords.map(reprojectCoords)` branch of reprojectCoords. -/
def reprojectCoordsList (f : ℚ × ℚ → ℚ × ℚ) : List Coords → List Coords
  | [] => []
  | c :: cs => reprojectCoords f c :: reprojectCoordsList f cs

end

mutual

/-- All coordinate pairs of a nested coordinate array, in order. -/
def coordLeaves : Coords → List (ℚ × ℚ)
  | .pair p => [p]
  | .arr cs => coordLeavesList cs

/-- All coordinate pairs of a list of nested coordinate arrays. -/
def coordLeavesList : List Coords → List (ℚ × ℚ)
  | [] => []
  | c :: cs => coordLeaves c ++ coordLeavesList cs

end

/-- A GeoJSON feature as the load handler sees it: geometry may be
absent (`if (f.geometry)`), the property bag is irrelevant to
reprojection. -/
structure Feature where
  geometry : Option Coords

/-- A fetched GeoJSON document: the declared crs member plus the
feature list. -/
structure GeoJson where
  crs : Option String
  features : List Feature

/-- All coordinate pairs of a feature, in order. -/
def featureLeaves (ft : Feature) : List (ℚ × ℚ) :=
  match ft.geometry with
  | some c => coordLeaves c
  | none => []

/-- The reprojection step of the map load handler: every feature with
a geometry has reprojectCoords applied to its coordinates, and then
`delete geojson.crs` removes the crs member.  The declared crs is
never read. -/
def loadReproject (f : ℚ × ℚ → ℚ × ℚ) (g : GeoJson) : GeoJson :=
  { crs := none
    features := g.features.map fun ft =>
      { ft with geometry := ft.geometry.map (reprojectCoords f) } }

/-! ## Map layer state (setMapLayer, resetMapView)

Observable map state: whether the three polygon layers have been added
by the async load handler, their visibility, the popup, and the
viewport, plus the module flag mhaVisible. -/

structure MapState where
  layersExist : Bool
  fillVisible : Bool
  outlineVisible : Bool
  hoverVisible : Bool
  mhaVisible : Bool
  popupShown : Bool
  center : ℚ × ℚ
  zoom : ℚ
deriving DecidableEq, Repr

/-- setMapLayer: compute the visibility from the layer name, record
mhaVisible, toggle all three layers only if they exist ("map may still
be loading"), and remove the popup when switching the layer off. -/
def setMapLayer (layerName : String) (s : MapState) : MapState :=
  let visible := layerName == "mha"
  let s := { s with mhaVisible := visible }
  let s :=
    if s.layersExist then
      { s with fillVisible := visible, outlineVisible := visible,
               hoverVisible := visible }
    else s
  if !visible then { s with popupShown := false } else s

/-- resetMapView: fly back to the fixed Seattle center and zoom. -/
def resetMapView (s : MapState) : MapState :=
  { s with center := (-122335/1000, 47608/1000), zoom := 11 }

/-! ## Hover interaction (initMapInteractions)

The per-feature "hovered" feature-state together with the module-level
hoveredId variable, driven by the mousemove and mouseleave handlers on
the fill layer. -/

structure HoverState where
  hovered : Nat → Bool
  hoveredId : Option Nat
  cursorPointer : Bool
  popupShown : Bool

/-- A pointer event on the fill layer: a mousemove carrying
`e.features` (ids under the pointer), or a mouseleave. -/
inductive HoverEvent where
  | mousemove : List Nat → HoverEvent
  | mouseleave : HoverEvent

/-- The mousemove handler: return early when `e.features` is empty;
otherwise clear the previously hovered feature state, then set the new
hovered id and show the popup. -/
def onMousemove (features : List Nat) (s : HoverState) : HoverState :=
  match features with
  | [] => s
  | i :: _ =>
    let s := { s with cursorPointer := true }
    let s :=
      match s.hoveredId with
      | some j => { s with hovered := fun k => if k = j then false else s.hovered k }
      | none => s
    { s with hovered := fun k => if k = i then true else s.hovered k
             hoveredId := some i
             popupShown := true }

/-- The mouseleave handler: reset the cursor, remove the popup, clear
the hovered feature state if one is set, null the hovered id. -/
def onMouseleave (s : HoverState) : HoverState :=
  let s := { s with cursorPointer := false, popupShown := false }
  match s.hoveredId with
  | some j =>
      { s with hovered := fun k => if k = j then false else s.hovered k
               hoveredId := none }
  | none => { s with hoveredId := none }

/-- Dispatch one pointer event. -/
def hoverStep (s : HoverState) : HoverEvent → HoverState
  | .mousemove fs => onMousemove fs s
  | .mouseleave => onMouseleave s

/-- State when initMapInteractions runs: `hoveredId = null` and no
feature has hover state set. -/
def initHoverState : HoverState :=
  { hovered := fun _ => false
    hoveredId := none
    cursorPointer := false
    popupShown := false }

/-- The hover state after a sequence of pointer events from the
initial state. -/
def runHover (events : List HoverEvent) : HoverState :=
  events.foldl hoverStep initHoverState

/-! ## Startup ordering

The deterministic ordering skeleton of the combined sources: the
top-level chart-data Promise.all fetch starts while the scripts are
evaluated; the map "load" event handler (registered during that same
evaluation) fires afterwards; its polygon fetch continuation, which
runs only once the polygon GeoJSON has resolved, calls
initMapInteractions, then initCharts, then initPanel, in that order. -/

inductive StartupEvent where
  | chartDataFetchStart
  | mapLoadFired
  | polygonFetchResolved
  | mapInteractionsBound
  | chartsInitialized
  | panelControlsBound
deriving DecidableEq, BEq, Repr

/-- The startup order fixed by the source: the chart-data fetch is
issued at script evaluation (top level of the charts module), before
the map load event can fire; the three initialisation calls run inside
the polygon fetch continuation in source order. -/
def startupTrace : List StartupEvent :=
  [.chartDataFetchStart, .mapLoadFired, .polygonFetchResolved,
   .mapInteractionsBound, .chartsInitialized, .panelControlsBound]

/-- Position of an event in the startup order. -/
def startupIdx (e : StartupEvent) : Nat :=
  startupTrace.findIdx (· == e)

/-! ## Panel state and the reset action (panel.js)

The DOM controls the panel owns: slider value, year badge, the active
race and layer buttons, legend opacity. -/

structure PanelState where
  sliderValue : Int
  yearDisplay : String
  activeRace : String
  activeLayer : String
  legendOpacity : String
deriving DecidableEq, Repr

/-- The reset button click handler: restore slider, year badge, race
and layer button selection and legend opacity to the defaults, then
resetCharts, resetMapView, and setMapLayer with the default layer.
The charts part can throw (null chart handles), in which case the
remaining steps do not run. -/
def resetAction (p : PanelState) (m : MapState) (c : ChartsState) :
    Except String (PanelState × MapState × ChartsState) := do
  let p := { p with sliderValue := 2022, yearDisplay := "2022",
                    activeRace := "All", activeLayer := "mha",
                    legendOpacity := "1" }
  let c ← resetCharts c
  let m := resetMapView m
  let m := setMapLayer "mha" m
  .ok (p, m, c)

/-! ## Concrete sample data and auxiliary predicates -/

/-- A row of the 2022 Renters/All-age data with burden fraction 0.231. -/
def demoRow : BurdenRow :=
  { YEAR := 2022, RACE := "All", TENURE := "Renters", AGE := "All", All_ := 231/1000 }

/-- A 2022 White Renters/All-age row. -/
def demoRowWhite : BurdenRow :=
  { YEAR := 2022, RACE := "White", TENURE := "Renters", AGE := "All", All_ := 181/1000 }

/-- A 2014 Black Renters/All-age row. -/
def demoRowBlack : BurdenRow :=
  { YEAR := 2014, RACE := "Black", TENURE := "Renters", AGE := "All", All_ := 412/1000 }

/-- A small dataset in an arbitrary storage order. -/
def witnessRows : List BurdenRow := [demoRowBlack, demoRowWhite, demoRow]

/-- The same dataset stored in a different order. -/
def witnessRowsPermuted : List BurdenRow := [demoRow, demoRowBlack, demoRowWhite]

/-- A chart state captured mid-session: year 2014, race Black selected,
both charts built over `witnessRows`. -/
def chartsBefore : ChartsState :=
  { rentBurdenData := witnessRows
    renterIncomeData := []
    trendChart := some (trendColumns witnessRows "Black")
    raceChart := some (getBurdenByRace witnessRows 2014)
    incomeChart := none
    currentYear := 2014
    currentRace := "Black"
    statText := ""
    subLabel := ""
    chart2YearLabel := "(2014)" }

/-- A map state after the polygon load, with the category layer mode
active in the panel sense. -/
def mapBefore : MapState :=
  { layersExist := true, fillVisible := false, outlineVisible := false,
    hoverVisible := false, mhaVisible := false, popupShown := false,
    center := (0, 0), zoom := 13 }

/-- A panel state mid-session: year 2014, race Black, category layer. -/
def panelBefore : PanelState :=
  { sliderValue := 2014, yearDisplay := "2014", activeRace := "Black",
    activeLayer := "category", legendOpacity := "0.3" }

/-- A map state before the asynchronous polygon load finished: no
layers yet, no popup. -/
def preloadMapState : MapState :=
  { layersExist := false, fillVisible := true, outlineVisible := true,
    hoverVisible := true, mhaVisible := true, popupShown := false,
    center := (0, 0), zoom := 11 }

/-- The hover bookkeeping invariant: a feature can carry hover state
only if it is the currently recorded hovered id. -/
def hoverInv (s : HoverState) : Prop :=
  ∀ j, s.hovered j = true → s.hoveredId = some j

/-- A stand-in for the external proj4 EPSG:2285 to WGS84 transform
(an external library capability): all that matters for the reprojection
claims is that the actual transform, like this one, is not the identity
on geographic longitude/latitude pairs. -/
def shiftTransform : ℚ × ℚ → ℚ × ℚ := fun p => (p.1 + 1, p.2)

/-- A GeoJSON document whose declared CRS says the coordinates are
already geographic longitude/latitude. -/
def geographicSample : GeoJson :=
  { crs := some "EPSG:4326", features := [{ geometry := some (.pair (0, 0)) }] }

end House

namespace House

/-! ## Helper lemmas -/

mutual

theorem coordLeaves_reproject (f : ℚ × ℚ → ℚ × ℚ) :
    ∀ c, coordLeaves (reprojectCoords f c) = (coordLeaves c).map f
  | .pair p => rfl
  | .arr cs => by
      simp [reprojectCoords, coordLeaves, coordLeavesList_reproject f cs]

theorem coordLeavesList_reproject (f : ℚ × ℚ → ℚ × ℚ) :
    ∀ cs, coordLeavesList (reprojectCoordsList f cs) = (coordLeavesList cs).map f
  | [] => rfl
  | c :: cs => by
      simp [reprojectCoordsList, coordLeavesList, coordLeaves_reproject f c,
        coordLeavesList_reproject f cs]

end

theorem hoverInv_init : hoverInv initHoverState := by
  intro j h
  simp [initHoverState] at h

theorem hoverInv_step (s : HoverState) (e : HoverEvent) (hs : hoverInv s) :
    hoverInv (hoverStep s e) := by
  cases e with
  | mousemove fs =>
    cases fs with
    | nil => exact hs
    | cons i rest =>
      intro j hj
      simp [hoverStep, onMousemove] at hj ⊢
      by_cases hji : j = i
      · simp [hji]
      · exfalso
        simp [hji] at hj
        cases hid : s.hoveredId with
        | none =>
          simp [hid] at hj
          exact (Option.noConfusion (hid ▸ hs j hj))
        | some m =>
          simp [hid] at hj
          by_cases hjm : j = m
          · simp [hjm] at hj
          · simp [hjm] at hj
            have := hs j hj
            rw [hid] at this
            exact hjm (Option.some.inj this).symm
  | mouseleave =>
    intro j hj
    exfalso
    simp [hoverStep, onMouseleave] at hj
    cases hid : s.hoveredId with
    | none =>
      simp [hid] at hj
      exact Option.noConfusion (hid ▸ hs j hj)
    | some m =>
      simp [hid] at hj
      by_cases hjm : j = m
      · simp [hjm] at hj
      · simp [hjm] at hj
        have := hs j hj
        rw [hid] at this
        exact hjm (Option.some.inj this).symm

theorem hoverInv_run (events : List HoverEvent) : hoverInv (runHover events) := by
  induction events using List.reverseRecOn with
  | nil => exact hoverInv_init
  | append_singleton l e ih =>
    rw [runHover, List.foldl_append]
    exact hoverInv_step _ e ih

/-- With distinct row keys, two rows matched by the same (year, race)
filter are the same row. -/
theorem matchRow_unique {data : List BurdenRow} {year : Int} {race : String}
    (huniq : data.Pairwise fun a b => rowKey a ≠ rowKey b) :
    ∀ a ∈ data, ∀ b ∈ data, matchRow year race a = true →
      matchRow year race b = true → a = b := by
  intro a ha b hb hma hmb
  by_contra hne
  have hsymm : Symmetric fun a b : BurdenRow => rowKey a ≠ rowKey b :=
    fun x y h => (h ∘ Eq.symm)
  have := huniq.forall hsymm ha hb hne
  apply this
  simp [matchRow] at hma hmb
  obtain ⟨⟨⟨hy1, hr1⟩, ht1⟩, hg1⟩ := hma
  obtain ⟨⟨⟨hy2, hr2⟩, ht2⟩, hg2⟩ := hmb
  simp [rowKey, hy1, hr1, ht1, hg1, hy2, hr2, ht2, hg2]

/-- find? is order-independent when at most one element can match. -/
theorem find?_congr_perm {p : BurdenRow → Bool} {l₁ l₂ : List BurdenRow}
    (hperm : l₁.Perm l₂)
    (huniq : ∀ a ∈ l₁, ∀ b ∈ l₁, p a = true → p b = true → a = b) :
    l₁.find? p = l₂.find? p := by
  cases h1 : l₁.find? p with
  | none =>
    cases h2 : l₂.find? p with
    | none => rfl
    | some y =>
      exfalso
      have hy := List.find?_some h2
      have hmem := hperm.mem_iff.mpr (List.mem_of_find?_eq_some h2)
      exact (List.find?_eq_none.mp h1 y hmem) hy
  | some x =>
    cases h2 : l₂.find? p with
    | none =>
      exfalso
      have hx := List.find?_some h1
      have hmem := hperm.mem_iff.mp (List.mem_of_find?_eq_some h1)
      exact (List.find?_eq_none.mp h2 x hmem) hx
    | some y =>
      have hx := List.find?_some h1
      have hy := List.find?_some h2
      have hxm := List.mem_of_find?_eq_some h1
      have hym := hperm.mem_iff.mpr (List.mem_of_find?_eq_some h2)
      rw [huniq x hxm y hym hx hy]

/-- With distinct keys, a member that matches is the find? result. -/
theorem find?_eq_of_mem {p : BurdenRow → Bool} {l : List BurdenRow} {r : BurdenRow}
    (huniq : ∀ a ∈ l, ∀ b ∈ l, p a = true → p b = true → a = b)
    (hr : r ∈ l) (hpr : p r = true) : l.find? p = some r := by
  cases h : l.find? p with
  | none => exact absurd hpr (List.find?_eq_none.mp h r hr)
  | some x =>
    rw [huniq x (List.mem_of_find?_eq_some h) r hr (List.find?_some h) hpr]

/-- Under the hover invariant, a mouseleave leaves no feature
hovered. -/
theorem onMouseleave_hovered (s : HoverState) (hs : hoverInv s) (j : Nat) :
    (onMouseleave s).hovered j = false := by
  simp only [onMouseleave]
  cases hid : s.hoveredId with
  | some m =>
    simp only [hid]
    by_cases hjm : j = m
    · simp [hjm]
    · simp only [if_neg hjm]
      cases hj : s.hovered j with
      | false => rfl
      | true =>
        exfalso
        have h := hs j hj
        rw [hid] at h
        exact hjm (Option.some.inj h).symm
  | none =>
    simp only [hid]
    cases hj : s.hovered j with
    | false => rfl
    | true =>
      exfalso
      have h := hs j hj
      rw [hid] at h
      exact Option.noConfusion h

/-- Under the hover invariant, a mousemove over a nonempty feature
list leaves exactly the first feature hovered. -/
theorem onMousemove_hovered (s : HoverState) (hs : hoverInv s)
    (i : Nat) (rest : List Nat) (j : Nat) :
    (onMousemove (i :: rest) s).hovered j = true ↔ j = i := by
  simp only [onMousemove]
  constructor
  · intro hj
    by_cases hji : j = i
    · exact hji
    · exfalso
      simp only [if_neg hji] at hj
      cases hid : s.hoveredId with
      | some m =>
        simp only [hid] at hj
        by_cases hjm : j = m
        · simp [hjm] at hj
        · simp only [if_neg hjm] at hj
          have h := hs j hj
          rw [hid] at h
          exact hjm (Option.some.inj h).symm
      | none =>
        simp only [hid] at hj
        have h := hs j hj
        rw [hid] at h
        exact Option.noConfusion h
  · intro hji
    simp [hji]

/-! ## Claim theorems -/

/-- C7: updateBurdenStat renders a matching Renters/All-age record's
burden fraction as a percentage with exactly one decimal place (0.231
renders "23.1%"), renders the en-dash placeholder when no record
matches, never throws (it is a total function), and writes the
sub-label "Race renters · Year", with race "All" rendered as
"All renters". -/
theorem C7_burden_stat_formatting (year : Int) (race : String) (c : ChartsState) :
    ((updateBurdenStat year race c).statText =
      match c.rentBurdenData.find? (matchRow year race) with
      | some r => pct r.All_
      | none => "–")
    ∧ (updateBurdenStat year race c).subLabel =
        (if race == "All" then "All renters" else race ++ " renters")
          ++ " · " ++ toString year
    ∧ pct (231/1000) = "23.1%" :=
  ⟨rfl, rfl, by decide⟩

/-- C10: updateBurdenStat rewrites the sub-label for the requested
(year, race) pair regardless of the data it finds — the sub-label is
independent of the dataset, and after a guaranteed lookup miss (empty
data) the stat shows the placeholder while the sub-label still names
the missed pair. -/
theorem C10_sublabel_always_rewritten (year : Int) (race : String)
    (c : ChartsState) (data1 data2 : List BurdenRow) :
    (updateBurdenStat year race { c with rentBurdenData := data1 }).subLabel =
      (updateBurdenStat year race { c with rentBurdenData := data2 }).subLabel
    ∧ (updateBurdenStat year race { c with rentBurdenData := [] }).statText = "–"
    ∧ (updateBurdenStat year race { c with rentBurdenData := [] }).subLabel =
        (if race == "All" then "All renters" else race ++ " renters")
          ++ " · " ++ toString year :=
  ⟨rfl, rfl, rfl⟩

/-- C9: before the asynchronous polygon load has created the layers,
setMapLayer changes nothing but the internal mhaVisible flag (whose
value is never read by later operations: the second conjunct shows
every setMapLayer result is independent of the stored flag), and it
cannot throw since it is a total function; once the layers exist it
toggles visibility of all three polygon layers together. -/
theorem C9_setMapLayer_guard (s : MapState) (n : String) :
    (s.layersExist = false → s.popupShown = false →
      setMapLayer n s = { s with mhaVisible := (n == "mha") })
    ∧ (∀ b, setMapLayer n { s with mhaVisible := b } = setMapLayer n s)
    ∧ (s.layersExist = true →
        (setMapLayer n s).fillVisible = (n == "mha")
        ∧ (setMapLayer n s).outlineVisible = (n == "mha")
        ∧ (setMapLayer n s).hoverVisible = (n == "mha")) := by
  refine ⟨?_, ?_, ?_⟩
  · intro h1 h2
    cases s
    cases hn : (n == "mha") <;>
      simp_all [setMapLayer, hn]
  · intro b
    cases s
    cases hn : (n == "mha") <;> simp [setMapLayer, hn]
  · intro h1
    cases s
    cases hn : (n == "mha") <;> simp_all [setMapLayer, hn]

/-- Witness for C9 at concrete states: a call before the load leaves
everything but the flag unchanged; a call after the load toggles the
fill layer. -/
theorem C9_setMapLayer_guard_witness :
    setMapLayer "base" preloadMapState =
      { preloadMapState with mhaVisible := ("base" == "mha") }
    ∧ (setMapLayer "mha" mapBefore).fillVisible = ("mha" == "mha") :=
  ⟨(C9_setMapLayer_guard preloadMapState "base").1 rfl rfl,
   ((C9_setMapLayer_guard mapBefore "mha").2.2 rfl).1⟩

/-- C8: when the race bar chart exists, updateChartsForYear succeeds
and modifies only the bar chart data, its year label, the stat block
and the current year: the trend line chart's data, the income chart,
the datasets and the current race are all left unchanged. -/
theorem C8_year_update_frame (c : ChartsState) (year : Int)
    (h : c.raceChart.isSome = true) :
    ∃ c', updateChartsForYear year c = .ok c'
      ∧ c'.trendChart = c.trendChart
      ∧ c'.incomeChart = c.incomeChart
      ∧ c'.renterIncomeData = c.renterIncomeData
      ∧ c'.rentBurdenData = c.rentBurdenData
      ∧ c'.currentRace = c.currentRace
      ∧ c'.currentYear = year
      ∧ c'.raceChart = some (getBurdenByRace c.rentBurdenData year)
      ∧ c'.chart2YearLabel = "(" ++ toString year ++ ")"
      ∧ c'.statText =
          (match c.rentBurdenData.find? (matchRow year c.currentRace) with
           | some r => pct r.All_
           | none => "–") := by
  cases hc : c.raceChart with
  | none => rw [hc] at h; simp at h
  | some rc =>
    have hstep : updateChartsForYear year c =
        .ok (updateBurdenStat year c.currentRace
          { c with currentYear := year
                   raceChart := some (getBurdenByRace c.rentBurdenData year)
                   chart2YearLabel := "(" ++ toString year ++ ")" }) := by
      simp [updateChartsForYear, hc]
    exact ⟨_, hstep, rfl, rfl, rfl, rfl, rfl, rfl, rfl, rfl, rfl⟩

/-- Witness for C8 at a concrete mid-session state. -/
theorem C8_year_update_frame_witness :
    ∃ c', updateChartsForYear 2022 chartsBefore = .ok c'
      ∧ c'.trendChart = chartsBefore.trendChart
      ∧ c'.currentRace = chartsBefore.currentRace
      ∧ c'.raceChart = some (getBurdenByRace chartsBefore.rentBurdenData 2022) := by
  obtain ⟨c', h1, h2, _, _, _, h6, _, h8, _⟩ :=
    C8_year_update_frame chartsBefore 2022 rfl
  exact ⟨c', h1, h2, h6, h8⟩

/-- C2 (amended): a failed chart-data fetch is only logged and leaves
the module state untouched, and the stat update then degrades to the
placeholder; but the chart update operations are not safe: with the
chart handles still null, updateChartsForYear, updateChartsForRace and
resetCharts all throw a TypeError instead of treating the missing data
as empty results. -/
theorem C2_failed_fetch_amended (year : Int) (race : String) (c : ChartsState) :
    (initCharts none c = c)
    ∧ (c.raceChart = none →
        updateChartsForYear year c = .error "TypeError: raceChart is null")
    ∧ (c.trendChart = none →
        updateChartsForRace race c = .error "TypeError: trendChart is null")
    ∧ (c.raceChart = none →
        resetCharts c = .error "TypeError: raceChart is null")
    ∧ (c.rentBurdenData = [] → (updateBurdenStat year race c).statText = "–") := by
  refine ⟨rfl, ?_, ?_, ?_, ?_⟩
  · intro h; simp [updateChartsForYear, h]
  · intro h; simp [updateChartsForRace, h]
  · intro h
    simp [resetCharts, updateChartsForYear, h, Bind.bind, Except.bind]
  · intro h; simp [updateBurdenStat, h]

/-- Witness for C2 at the post-failure module state. -/
theorem C2_failed_fetch_amended_witness :
    updateChartsForYear 2014 initialChartsState =
      .error "TypeError: raceChart is null"
    ∧ resetCharts initialChartsState = .error "TypeError: raceChart is null"
    ∧ (updateBurdenStat 2014 "Black" initialChartsState).statText = "–" :=
  ⟨(C2_failed_fetch_amended 2014 "Black" initialChartsState).2.1 rfl,
   (C2_failed_fetch_amended 2014 "Black" initialChartsState).2.2.2.1 rfl,
   (C2_failed_fetch_amended 2014 "Black" initialChartsState).2.2.2.2 rfl⟩

/-- C2 counterexample: after the chart-data fetch fails (state
unchanged by the logged-only catch handler), the very next year update
— as invoked by the year slider — throws instead of degrading. -/
theorem C2_counterexample :
    updateChartsForYear 2014 (initCharts none initialChartsState) =
      .error "TypeError: raceChart is null" := rfl

/-- C6: after every handler on the fill layer completes, at most one
polygon id carries hover feature-state; a mouseleave clears it
unconditionally; and a mousemove with features under the pointer
clears the previous id and leaves exactly the first feature id
hovered. -/
theorem C6_hover_at_most_one (events : List HoverEvent) (i : Nat)
    (rest : List Nat) :
    (∀ j k, (runHover events).hovered j = true →
        (runHover events).hovered k = true → j = k)
    ∧ (∀ j, (runHover (events ++ [.mouseleave])).hovered j = false)
    ∧ (∀ j, (runHover (events ++ [.mousemove (i :: rest)])).hovered j = true
        ↔ j = i) := by
  have hs := hoverInv_run events
  refine ⟨?_, ?_, ?_⟩
  · intro j k hj hk
    have h1 := hs j hj
    have h2 := hs k hk
    rw [h1] at h2
    exact Option.some.inj h2
  · intro j
    simp only [runHover, List.foldl_append, List.foldl_cons, List.foldl_nil]
    exact onMouseleave_hovered _ hs j
  · intro j
    simp only [runHover, List.foldl_append, List.foldl_cons, List.foldl_nil]
    exact onMousemove_hovered _ hs i rest j

/-- C4: the by-race burden query returns one value per requested race,
in the requested order: the i-th element is the unique matching
record's burden fraction scaled to a percentage and rounded to one
decimal, or 0 when no record matches, and the result is independent of
the storage order of the rows; getBurdenByRace is this query at the
fixed race list. -/
theorem C4_burden_across_races (data : List BurdenRow) (year : Int)
    (races : List String)
    (huniq : data.Pairwise fun a b => rowKey a ≠ rowKey b) :
    (burdenByYearAcrossRaces data year races).length = races.length
    ∧ (∀ (i : Nat) (race : String), races[i]? = some race →
        (∀ r ∈ data, matchRow year race r = true →
          (burdenByYearAcrossRaces data year races)[i]? =
            some (round1 (r.All_ * 100)))
        ∧ ((∀ r ∈ data, matchRow year race r = false) →
          (burdenByYearAcrossRaces data year races)[i]? = some 0))
    ∧ (∀ data', data.Perm data' →
        burdenByYearAcrossRaces data' year races =
          burdenByYearAcrossRaces data year races)
    ∧ getBurdenByRace data year = burdenByYearAcrossRaces data year RACES := by
  refine ⟨by simp [burdenByYearAcrossRaces], ?_, ?_, rfl⟩
  · intro i race hi
    constructor
    · intro r hr hm
      have hfind : data.find? (matchRow year race) = some r :=
        find?_eq_of_mem (matchRow_unique huniq) hr hm
      simp [burdenByYearAcrossRaces, hi, hfind]
    · intro hnone
      have hfind : data.find? (matchRow year race) = none :=
        List.find?_eq_none.mpr fun x hx => by simp [hnone x hx]
      simp [burdenByYearAcrossRaces, hi, hfind]
  · intro data' hperm
    simp only [burdenByYearAcrossRaces]
    apply List.map_congr_left
    intro race _
    rw [find?_congr_perm hperm (matchRow_unique huniq)]

/-- Witness for C4 on a concrete dataset and its reordering. -/
theorem C4_burden_across_races_witness :
    (burdenByYearAcrossRaces witnessRows 2022 RACES).length = RACES.length
    ∧ burdenByYearAcrossRaces witnessRowsPermuted 2022 RACES =
        burdenByYearAcrossRaces witnessRows 2022 RACES := by
  have hu : witnessRows.Pairwise fun a b => rowKey a ≠ rowKey b := by decide
  have h := C4_burden_across_races witnessRows 2022 RACES hu
  exact ⟨h.1, h.2.2.1 witnessRowsPermuted (by decide)⟩

/-- C5: from any prior selection state in which both charts are built,
the reset action succeeds and yields year 2022, race "All" and the mha
layer mode, the panel controls reset to the defaults, the bar chart
reloaded with the year-2022 values, the trend chart reloaded with the
race-"All" series, and the stat block reflecting (2022, All). -/
theorem C5_reset_restores_defaults (p : PanelState) (m : MapState)
    (c : ChartsState) (ht : c.trendChart.isSome = true)
    (hr : c.raceChart.isSome = true) :
    ∃ p' m' c', resetAction p m c = .ok (p', m', c')
      ∧ c'.currentYear = 2022
      ∧ c'.currentRace = "All"
      ∧ p'.sliderValue = 2022
      ∧ p'.activeRace = "All"
      ∧ p'.activeLayer = "mha"
      ∧ m'.mhaVisible = true
      ∧ c'.raceChart = some (getBurdenByRace c.rentBurdenData 2022)
      ∧ c'.trendChart = some (trendColumns c.rentBurdenData "All")
      ∧ c'.subLabel = "All renters · 2022"
      ∧ c'.statText =
          (match c.rentBurdenData.find? (matchRow 2022 "All") with
           | some r => pct r.All_
           | none => "–") := by
  obtain ⟨data, ri, tcf, rcf, icf, cy, crace, st, sl, cyl⟩ := c
  cases tcf with
  | none => simp at ht
  | some tc =>
    cases rcf with
    | none => simp at hr
    | some rc =>
      refine ⟨_, _, _, rfl, rfl, rfl, rfl, rfl, rfl, ?_, rfl, rfl, rfl, rfl⟩
      cases hle : (resetMapView m).layersExist <;> simp [setMapLayer, hle]

/-- Witness for C5 at the concrete prior state (2014, Black,
category). -/
theorem C5_reset_restores_defaults_witness :
    ∃ p' m' c', resetAction panelBefore mapBefore chartsBefore = .ok (p', m', c')
      ∧ c'.currentYear = 2022
      ∧ c'.currentRace = "All"
      ∧ p'.activeLayer = "mha"
      ∧ m'.mhaVisible = true
      ∧ c'.raceChart = some (getBurdenByRace chartsBefore.rentBurdenData 2022)
      ∧ c'.trendChart = some (trendColumns chartsBefore.rentBurdenData "All") := by
  obtain ⟨p', m', c', h1, h2, h3, _, _, h6, h7, h8, h9, _, _⟩ :=
    C5_reset_restores_defaults panelBefore mapBefore chartsBefore rfl rfl
  exact ⟨p', m', c', h1, h2, h3, h6, h7, h8, h9⟩

/-- C1 (amended): the reprojection step applies the external transform
to every coordinate pair of every geometry, recursing through nested
polygon/multipolygon arrays, but it does so unconditionally: the
declared source CRS is never consulted (the transformed features are
independent of it, and the crs member is deleted), so a geometry
already in geographic coordinates would be transformed like any other;
a double transform is avoided only because the step runs once per
fetched document. -/
theorem C1_reprojection_amended (f : ℚ × ℚ → ℚ × ℚ) (g : GeoJson)
    (c₁ c₂ : Option String) :
    (loadReproject f g).crs = none
    ∧ (loadReproject f g).features.map featureLeaves =
        g.features.map (fun ft => (featureLeaves ft).map f)
    ∧ (loadReproject f { g with crs := c₁ }).features =
        (loadReproject f { g with crs := c₂ }).features := by
  refine ⟨rfl, ?_, rfl⟩
  simp only [loadReproject, List.map_map]
  apply List.map_congr_left
  intro ft _
  cases hg : ft.geometry with
  | none => simp [featureLeaves, hg]
  | some c => simp [featureLeaves, hg, Function.comp, coordLeaves_reproject]

/-- C1 counterexample: a document whose declared CRS already says
geographic longitude/latitude does not keep its coordinates — the load
step transforms them anyway (shown with a stand-in non-identity
transform; the actual Lambert Conformal Conic inverse is likewise not
the identity on longitude/latitude pairs). -/
theorem C1_counterexample :
    (loadReproject shiftTransform geographicSample).features ≠
      geographicSample.features := by
  intro h
  simp [loadReproject, geographicSample, shiftTransform, reprojectCoords] at h

/-- C3 (amended): panel control binding and the load-handler chart
initialisation run only after the polygon fetch resolves, in the order
interactions, charts, panel; but the chart-data fetch itself starts at
script evaluation, before the map load event fires. -/
theorem C3_startup_order_amended :
    startupIdx .mapLoadFired < startupIdx .polygonFetchResolved
    ∧ startupIdx .polygonFetchResolved < startupIdx .mapInteractionsBound
    ∧ startupIdx .mapInteractionsBound < startupIdx .chartsInitialized
    ∧ startupIdx .chartsInitialized < startupIdx .panelControlsBound
    ∧ startupIdx .chartDataFetchStart < startupIdx .mapLoadFired := by decide

/-- C3 counterexample: the chart-data fetch starts strictly before the
polygon GeoJSON load completes, refuting the claimed strict
map-ready-first chain for the fetch. -/
theorem C3_counterexample :
    startupIdx .chartDataFetchStart < startupIdx .polygonFetchResolved := by
  decide

end House
